import Mathlib

/-!
Verification development for the transport/session multiplexer of
`src/index.ts` and the configuration validation of `src/config.ts`
(mcp-zon/open-webSearch).

The HTTP layer keeps two session tables,
`const transports = { streamable: {}, sse: {} }`, mapping session-id
strings to transport endpoints.  We model a JS `Record<string, T>` as an
association list from `String` to an abstract endpoint handle (`Nat`),
with JS assignment (`m[k] = v`, replace-or-append), JS `delete m[k]`,
and JS lookup (`m[k]`, `undefined` when absent).
-/

namespace OpenWebSearch

/-- JS truthiness of an optional string (a header value that may be
`undefined`): `undefined` and the empty string are falsy. -/
def jsTruthy : Option String → Bool
  | none => false
  | some s => !(s == "")

/-- JS record lookup `m[k]`: first entry with key `k`, if any. -/
def recordGet (m : List (String × Nat)) (k : String) : Option Nat :=
  match m with
  | [] => none
  | p :: rest => if p.1 == k then some p.2 else recordGet rest k

/-- JS record assignment `m[k] = v`: overwrite the entry for `k` when
present, otherwise append a new entry. -/
def recordSet (m : List (String × Nat)) (k : String) (v : Nat) : List (String × Nat) :=
  match m with
  | [] => [(k, v)]
  | p :: rest => if p.1 == k then (k, v) :: rest else p :: recordSet rest k v

/-- JS `delete m[k]`: remove the entry for `k`. -/
def recordDelete (m : List (String × Nat)) (k : String) : List (String × Nat) :=
  match m with
  | [] => []
  | p :: rest => if p.1 == k then recordDelete rest k else p :: recordDelete rest k

/-- The server's mutable session state.  `streamable` and `sse` are the
two tables of `const transports` (index.ts lines 51-54).  The last two
fields are ghost instrumentation recording protocol progress, used only
to state temporal properties: `sseConnected` holds the sse session ids
for which `await server.connect(transport)` (line 133) has resolved, and
`handshaked` holds the streamable session ids whose protocol handshake
completed (the moment the SDK fires the `onsessioninitialized` callback,
lines 69-72). -/
structure ServerState where
  streamable : List (String × Nat)
  sse : List (String × Nat)
  sseConnected : List String
  handshaked : List String
deriving DecidableEq

/-- The state at process start: both tables empty. -/
def initState : ServerState := ⟨[], [], [], []⟩

/-- Outcome of a route handler.  `jsonRpcErrorRes status code message`
stands for
`res.status(status).json({ jsonrpc: "2.0", error: { code, message }, id: null })`;
`textRes status body` for `res.status(status).send(body)`; and
`handledByTransport ep` for delegating the request to
`transport.handleRequest` on endpoint `ep` (the response is then produced
by that endpoint, external to this layer). -/
inductive HttpResponse where
  | jsonRpcErrorRes (status : Nat) (code : Int) (message : String)
  | textRes (status : Nat) (body : String)
  | handledByTransport (endpoint : Nat)
deriving DecidableEq

/-- `app.post('/mcp')` (index.ts lines 57-103).
`header` is `req.headers['mcp-session-id']`; `isInit` is the external
codec predicate `isInitializeRequest(req.body)`; `handshakeOk` tells
whether the SDK's handshake for a freshly created transport succeeds
(only then does the SDK fire `onsessioninitialized`, which stores the
transport under the generated id `freshId`); `freshEp` is the endpoint
handle of the newly constructed transport.

The branch structure mirrors the source exactly:
`if (sessionId && transports.streamable[sessionId]) { reuse }
 else if (!sessionId && isInitializeRequest(req.body)) { create }
 else { 400 with the JSON-RPC error envelope }`. -/
def postMcp (st : ServerState) (header : Option String) (isInit : Bool)
    (handshakeOk : Bool) (freshId : String) (freshEp : Nat) :
    HttpResponse × ServerState :=
  if jsTruthy header && (recordGet st.streamable (header.getD "")).isSome then
    (HttpResponse.handledByTransport ((recordGet st.streamable (header.getD "")).getD 0), st)
  else if !(jsTruthy header) && isInit then
    (HttpResponse.handledByTransport freshEp,
      if handshakeOk then
        ⟨recordSet st.streamable freshId freshEp, st.sse,
          st.sseConnected, st.handshaked ++ [freshId]⟩
      else st)
  else
    (HttpResponse.jsonRpcErrorRes 400 (-32000)
      "Bad Request: No valid session ID provided", st)

/-- `handleSessionRequest` (index.ts lines 106-115), mounted for both
GET and DELETE on `/mcp`:
`if (!sessionId || !transports.streamable[sessionId]) { 400 text }` else
forward to the stored transport. -/
def handleSessionRequest (st : ServerState) (header : Option String) :
    HttpResponse × ServerState :=
  if !(jsTruthy header) || (recordGet st.streamable (header.getD "")).isNone then
    (HttpResponse.textRes 400 "Invalid or missing session ID", st)
  else
    (HttpResponse.handledByTransport ((recordGet st.streamable (header.getD "")).getD 0), st)

/-- The `transport.onclose` handler of a streamable transport
(index.ts lines 80-84): `if (transport.sessionId) delete
transports.streamable[transport.sessionId]`.  `tsid` is the transport's
`sessionId` property (`undefined` until the handshake assigned one). -/
def streamableOnClose (st : ServerState) (tsid : Option String) : ServerState :=
  if jsTruthy tsid then
    ⟨recordDelete st.streamable (tsid.getD ""), st.sse, st.sseConnected, st.handshaked⟩
  else st

/-- The registration step of `app.get('/sse')` (index.ts lines 126-127):
the handler constructs `new SSEServerTransport('/messages', res)` — which
generates the session id `freshId` — and immediately stores it with
`transports.sse[transport.sessionId] = transport`.  This runs before
`await server.connect(transport)` (line 133). -/
def getSseRegister (st : ServerState) (freshId : String) (freshEp : Nat) : ServerState :=
  ⟨st.streamable, recordSet st.sse freshId freshEp, st.sseConnected, st.handshaked⟩

/-- Ghost step: `await server.connect(transport)` (index.ts line 133)
resolves for the sse session `sid`, establishing its push stream. -/
def sseConnectDone (st : ServerState) (sid : String) : ServerState :=
  ⟨st.streamable, st.sse, st.sseConnected ++ [sid], st.handshaked⟩

/-- The `res.on("close")` handler of `app.get('/sse')` (index.ts lines
129-131): `delete transports.sse[transport.sessionId]`. -/
def sseOnClose (st : ServerState) (sid : String) : ServerState :=
  ⟨st.streamable, recordDelete st.sse sid, st.sseConnected, st.handshaked⟩

/-- `app.post('/messages')` (index.ts lines 137-145): the target id is
`req.query.sessionId`; if `transports.sse[sessionId]` exists the message
is forwarded to it via `handlePostMessage`, else 400 plain text. -/
def postMessages (st : ServerState) (sid : String) : HttpResponse × ServerState :=
  match recordGet st.sse sid with
  | some ep => (HttpResponse.handledByTransport ep, st)
  | none => (HttpResponse.textRes 400 "No transport found for sessionId", st)

/-- One observable event at the HTTP/session layer. -/
inductive Ev where
  | postMcpEv (header : Option String) (isInit : Bool) (handshakeOk : Bool)
      (freshId : String) (freshEp : Nat)
  | getMcpEv (header : Option String)
  | deleteMcpEv (header : Option String)
  | streamableCloseEv (tsid : Option String)
  | getSseEv (freshId : String) (freshEp : Nat)
  | sseConnectDoneEv (sid : String)
  | sseCloseEv (sid : String)
  | postMessagesEv (sid : String)
deriving DecidableEq

/-- State transition for one event. -/
def step (st : ServerState) : Ev → ServerState
  | Ev.postMcpEv h i ok fid fep => (postMcp st h i ok fid fep).2
  | Ev.getMcpEv h => (handleSessionRequest st h).2
  | Ev.deleteMcpEv h => (handleSessionRequest st h).2
  | Ev.streamableCloseEv t => streamableOnClose st t
  | Ev.getSseEv fid fep => getSseRegister st fid fep
  | Ev.sseConnectDoneEv s => sseConnectDone st s
  | Ev.sseCloseEv s => sseOnClose st s
  | Ev.postMessagesEv s => (postMessages st s).2

/-- Run a sequence of events. -/
def run (st : ServerState) (evs : List Ev) : ServerState := evs.foldl step st

/-- `evAvoids s e` holds when event `e` does not create a streamable
session with the server-generated id `s`.  Freshly generated ids are
`randomUUID()` values, so a trace after the closure of session `s` always
avoids `s` (the spec: "A session's id must never be reused"). -/
def evAvoids (s : String) : Ev → Bool
  | Ev.postMcpEv _ _ _ fid _ => fid != s
  | _ => true

/-- The invariant that a streamable session id is registered in the
table only once its endpoint's handshake has completed (the
`onsessioninitialized` moment). -/
def StreamInv (st : ServerState) : Prop :=
  ∀ s, recordGet st.streamable s ≠ none → s ∈ st.handshaked

/-- Stated from the spec's words, for comparison with the code's
behavior: in every reachable state, a session id appears in a table only
after the corresponding endpoint's initialization has completed — for
the streamable table, the handshake; for the sse table, the resolution
of `server.connect` on that endpoint. -/
def insertedOnlyAfterInitSpec : Prop :=
  ∀ (evs : List Ev) (s : String),
    (recordGet (run initState evs).streamable s ≠ none →
      s ∈ (run initState evs).handshaked) ∧
    (recordGet (run initState evs).sse s ≠ none →
      s ∈ (run initState evs).sseConnected)

/-! ## Configuration (`src/config.ts`) -/

/-- `const validSearchEngines` (config.ts). -/
def validSearchEngines : List String :=
  ["bing", "duckduckgo", "exa", "brave", "baidu", "csdn", "linuxdo", "juejin"]

/-- The two search-engine fields of `AppConfig` that the validation
block mutates. -/
structure SearchConfig where
  defaultSearchEngine : String
  allowedSearchEngines : List String
deriving DecidableEq

/-- JS `s.split(',')`: cut the character sequence at every comma.  The
split of a non-empty string with no comma is the singleton of the string
itself, matching JS. -/
def splitCommaAux : List Char → List Char → List String
  | [], acc => [String.mk acc.reverse]
  | c :: rest, acc =>
    if c = ',' then String.mk acc.reverse :: splitCommaAux rest []
    else splitCommaAux rest (c :: acc)

/-- JS `s.split(',')` on a string. -/
def splitComma (s : String) : List String := splitCommaAux s.data []

/-- JS `s.trim()`: strip leading and trailing whitespace. -/
def trimChars (s : String) : String :=
  String.mk (((s.data.dropWhile Char.isWhitespace).reverse.dropWhile
    Char.isWhitespace).reverse)

/-- The initial `config` object (config.ts, fields `defaultSearchEngine`
and `allowedSearchEngines`):
`process.env.DEFAULT_SEARCH_ENGINE || 'bing'` and
`process.env.ALLOWED_SEARCH_ENGINES ? split(',').map(trim) : []`.
JS `||` and `?:` treat the empty string as falsy. -/
def initialConfig (envDefault : Option String) (envAllowed : Option String) :
    SearchConfig :=
  ⟨if jsTruthy envDefault then envDefault.getD "" else "bing",
   if jsTruthy envAllowed then
     (splitComma (envAllowed.getD "")).map trimChars
   else []⟩

/-- The first validation step of config.ts (lines 198-201): fall back to
`"bing"` when the default engine is not in `validSearchEngines`. -/
def validDefault (c : SearchConfig) : String :=
  if validSearchEngines.contains c.defaultSearchEngine then c.defaultSearchEngine
  else "bing"

/-- The filtering step of config.ts (line 210): keep only valid engines
in the allowed list. -/
def filteredAllowed (c : SearchConfig) : List String :=
  c.allowedSearchEngines.filter (fun engine => validSearchEngines.contains engine)

/-- The whole validation block of config.ts (lines 198-223): validate
the default engine; when the allowed list is non-empty, filter it down
to valid engines; if the filtered list is empty no restriction applies,
and otherwise, when the default engine is not in the filtered list, the
default is replaced by the first allowed engine
(`config.allowedSearchEngines[0]`). -/
def validateConfig (c : SearchConfig) : SearchConfig :=
  if c.allowedSearchEngines.length > 0 then
    if (filteredAllowed c).length = 0 then
      ⟨validDefault c, filteredAllowed c⟩
    else if (filteredAllowed c).contains (validDefault c) then
      ⟨validDefault c, filteredAllowed c⟩
    else
      ⟨(filteredAllowed c).headD "bing", filteredAllowed c⟩
  else
    ⟨validDefault c, c.allowedSearchEngines⟩

/-- Loading then validating the configuration from the two environment
variables. -/
def loadConfig (envDefault envAllowed : Option String) : SearchConfig :=
  validateConfig (initialConfig envDefault envAllowed)

/-! ## Record lemmas -/

theorem recordGet_set_self (m : List (String × Nat)) (k : String) (v : Nat) :
    recordGet (recordSet m k v) k = some v := by
  induction m with
  | nil => simp [recordSet, recordGet]
  | cons p rest ih =>
    by_cases h : p.1 = k
    · simp [recordSet, recordGet, h]
    · simp [recordSet, recordGet, h, ih]

theorem recordGet_set_ne (m : List (String × Nat)) (k : String) (v : Nat)
    (q : String) (h : q ≠ k) : recordGet (recordSet m k v) q = recordGet m q := by
  have hk : ¬ (k = q) := fun e => h e.symm
  induction m with
  | nil => simp [recordSet, recordGet, hk]
  | cons p rest ih =>
    by_cases hp : p.1 = k
    · have hpq : ¬ (p.1 = q) := by rw [hp]; exact hk
      simp [recordSet, recordGet, hp, hk, hpq]
    · by_cases hq : p.1 = q
      · simp [recordSet, recordGet, hp, hq, h]
      · simp [recordSet, recordGet, hp, hq, ih]

theorem recordGet_delete_self (m : List (String × Nat)) (k : String) :
    recordGet (recordDelete m k) k = none := by
  induction m with
  | nil => simp [recordDelete, recordGet]
  | cons p rest ih =>
    by_cases h : p.1 = k
    · simp [recordDelete, h, ih]
    · simp [recordDelete, recordGet, h, ih]

theorem recordGet_delete_ne (m : List (String × Nat)) (k : String)
    (q : String) (h : q ≠ k) : recordGet (recordDelete m k) q = recordGet m q := by
  have hk : ¬ (k = q) := fun e => h e.symm
  induction m with
  | nil => simp [recordDelete]
  | cons p rest ih =>
    by_cases hp : p.1 = k
    · have hpq : ¬ (p.1 = q) := by rw [hp]; exact hk
      simp [recordDelete, recordGet, hp, hpq, hk, ih]
    · by_cases hq : p.1 = q
      · simp [recordDelete, recordGet, hp, hq, h]
      · simp [recordDelete, recordGet, hp, hq, ih]

theorem recordGet_delete_none (m : List (String × Nat)) (k q : String)
    (h : recordGet m q = none) : recordGet (recordDelete m k) q = none := by
  by_cases hq : q = k
  · rw [hq]; exact recordGet_delete_self m k
  · rw [recordGet_delete_ne m k q hq]; exact h

theorem recordGet_delete_isSome (m : List (String × Nat)) (k q : String)
    (h : recordGet (recordDelete m k) q ≠ none) : recordGet m q ≠ none := by
  by_cases hq : q = k
  · rw [hq, recordGet_delete_self] at h; exact absurd rfl h
  · rwa [recordGet_delete_ne m k q hq] at h

/-! ## Basic handler lemmas -/

/-- Both branches of `handleSessionRequest` leave the state untouched. -/
theorem handleSessionRequest_state (st : ServerState) (h : Option String) :
    (handleSessionRequest st h).2 = st := by
  unfold handleSessionRequest
  split <;> rfl

/-- Both branches of `postMessages` leave the state untouched. -/
theorem postMessages_state (st : ServerState) (s : String) :
    (postMessages st s).2 = st := by
  unfold postMessages
  split <;> rfl

/-- The state after `postMcp` is either unchanged or the result of
storing the fresh transport under the fresh id (and recording the
completed handshake). -/
theorem postMcp_state_cases (st : ServerState) (h : Option String) (i ok : Bool)
    (fid : String) (fep : Nat) :
    (postMcp st h i ok fid fep).2 = st ∨
    (postMcp st h i ok fid fep).2 =
      ⟨recordSet st.streamable fid fep, st.sse, st.sseConnected,
        st.handshaked ++ [fid]⟩ := by
  unfold postMcp
  split
  · exact Or.inl rfl
  · split
    · dsimp only
      split
      · exact Or.inr rfl
      · exact Or.inl rfl
    · exact Or.inl rfl

/-- The else-branch of `postMcp`: when neither the reuse condition nor
the creation condition holds, the handler answers with the JSON-RPC
error envelope and does not touch the state. -/
theorem postMcp_reject (st : ServerState) (h : Option String) (i ok : Bool)
    (fid : String) (fep : Nat)
    (h1 : (jsTruthy h && (recordGet st.streamable (h.getD "")).isSome) = false)
    (h2 : (!(jsTruthy h) && i) = false) :
    postMcp st h i ok fid fep =
      (HttpResponse.jsonRpcErrorRes 400 (-32000)
        "Bad Request: No valid session ID provided", st) := by
  unfold postMcp
  rw [h1, h2]
  simp

/-- A POST to `/mcp` whose header carries a non-empty id that is not in
the streamable table is always rejected, whatever the body is. -/
theorem postMcp_unknown_header (st : ServerState) (s : String) (i ok : Bool)
    (fid : String) (fep : Nat) (hs : s ≠ "")
    (hnone : recordGet st.streamable s = none) :
    postMcp st (some s) i ok fid fep =
      (HttpResponse.jsonRpcErrorRes 400 (-32000)
        "Bad Request: No valid session ID provided", st) := by
  apply postMcp_reject
  · simp [jsTruthy, hnone]
  · simp [jsTruthy, hs]

/-- The reject branch of `handleSessionRequest`. -/
theorem handleSessionRequest_reject (st : ServerState) (h : Option String)
    (hc : (!(jsTruthy h) || (recordGet st.streamable (h.getD "")).isNone) = true) :
    handleSessionRequest st h =
      (HttpResponse.textRes 400 "Invalid or missing session ID", st) := by
  unfold handleSessionRequest
  rw [hc]
  simp

/-- The forward branch of `handleSessionRequest`. -/
theorem handleSessionRequest_forward (st : ServerState) (s : String) (ep : Nat)
    (hs : s ≠ "") (hreg : recordGet st.streamable s = some ep) :
    handleSessionRequest st (some s) = (HttpResponse.handledByTransport ep, st) := by
  unfold handleSessionRequest
  have hc : (!(jsTruthy (some s)) ||
      (recordGet st.streamable ((some s).getD "")).isNone) = false := by
    simp [jsTruthy, hs, hreg]
  rw [hc]
  simp [hreg]

/-! ## Trace invariants -/

/-- A step that avoids creating a streamable session with id `s` keeps
`s` absent from the streamable table. -/
theorem step_preserves_absent (st : ServerState) (s : String) (e : Ev)
    (hnone : recordGet st.streamable s = none) (hav : evAvoids s e = true) :
    recordGet (step st e).streamable s = none := by
  cases e with
  | postMcpEv h i ok fid fep =>
    have hfid : fid ≠ s := by simpa [evAvoids] using hav
    rcases postMcp_state_cases st h i ok fid fep with hc | hc <;>
      simp only [step, hc]
    · exact hnone
    · rw [recordGet_set_ne _ _ _ _ (fun e => hfid e.symm)]
      exact hnone
  | getMcpEv h => simpa only [step, handleSessionRequest_state] using hnone
  | deleteMcpEv h => simpa only [step, handleSessionRequest_state] using hnone
  | streamableCloseEv t =>
    simp only [step, streamableOnClose]
    split
    · exact recordGet_delete_none _ _ _ hnone
    · exact hnone
  | getSseEv fid fep => exact hnone
  | sseConnectDoneEv sid => exact hnone
  | sseCloseEv sid => exact hnone
  | postMessagesEv sid => simpa only [step, postMessages_state] using hnone

/-- A whole trace that avoids re-generating id `s` keeps `s` absent from
the streamable table. -/
theorem run_preserves_absent (s : String) (evs : List Ev) :
    ∀ st : ServerState, recordGet st.streamable s = none →
      (∀ e ∈ evs, evAvoids s e = true) →
      recordGet (run st evs).streamable s = none := by
  induction evs with
  | nil => intro st h _; exact h
  | cons e rest ih =>
    intro st h hav
    have h1 : recordGet (step st e).streamable s = none :=
      step_preserves_absent st s e h (hav e (List.mem_cons_self e rest))
    exact ih (step st e) h1 (fun x hx => hav x (List.mem_cons_of_mem e hx))

/-- Every step preserves the invariant that streamable ids in the table
have completed their handshake. -/
theorem step_preserves_streamInv (st : ServerState) (e : Ev)
    (h : StreamInv st) : StreamInv (step st e) := by
  cases e with
  | postMcpEv hd i ok fid fep =>
    rcases postMcp_state_cases st hd i ok fid fep with hc | hc <;>
      simp only [step, hc]
    · exact h
    · intro s hs
      by_cases hsf : s = fid
      · simp [hsf]
      · rw [recordGet_set_ne _ _ _ _ hsf] at hs
        exact List.mem_append_left _ (h s hs)
  | getMcpEv hd => simpa only [step, handleSessionRequest_state] using h
  | deleteMcpEv hd => simpa only [step, handleSessionRequest_state] using h
  | streamableCloseEv t =>
    simp only [step, streamableOnClose]
    split
    · intro s hs
      exact h s (recordGet_delete_isSome _ _ _ hs)
    · exact h
  | getSseEv fid fep => exact h
  | sseConnectDoneEv sid => exact h
  | sseCloseEv sid => exact h
  | postMessagesEv sid => simpa only [step, postMessages_state] using h

/-- The handshake invariant holds along every run from a state that
satisfies it. -/
theorem run_preserves_streamInv (evs : List Ev) :
    ∀ st : ServerState, StreamInv st → StreamInv (run st evs) := by
  induction evs with
  | nil => intro st h; exact h
  | cons e rest ih =>
    intro st h
    exact ih (step st e) (step_preserves_streamInv st e h)

/-- The handshake invariant holds in every reachable state. -/
theorem reachable_streamInv (evs : List Ev) : StreamInv (run initState evs) := by
  apply run_preserves_streamInv
  intro s hs
  simp [initState, recordGet] at hs

/-- When the creation condition `!sessionId && isInitializeRequest(body)`
is false, `postMcp` never changes the state. -/
theorem postMcp_no_create (st : ServerState) (h : Option String) (i ok : Bool)
    (fid : String) (fep : Nat) (hc : (!(jsTruthy h) && i) = false) :
    (postMcp st h i ok fid fep).2 = st := by
  unfold postMcp
  by_cases h1 : (jsTruthy h && (recordGet st.streamable (h.getD "")).isSome) = true
  · rw [h1]; simp
  · rw [Bool.not_eq_true] at h1
    rw [h1, hc]
    simp

/-! ## Configuration lemmas -/

theorem contains_iff_mem (l : List String) (a : String) :
    l.contains a = true ↔ a ∈ l := by
  simp [List.contains]

theorem validDefault_mem (c : SearchConfig) : validDefault c ∈ validSearchEngines := by
  unfold validDefault
  split
  · next hc => exact (contains_iff_mem _ _).mp hc
  · decide

theorem mem_filtered_valid (c : SearchConfig) (x : String)
    (hx : x ∈ filteredAllowed c) : x ∈ validSearchEngines := by
  have h := List.mem_filter.mp hx
  exact (contains_iff_mem _ _).mp h.2

theorem validateConfig_invariant (c : SearchConfig) :
    (validateConfig c).defaultSearchEngine ∈ validSearchEngines ∧
    ((validateConfig c).allowedSearchEngines ≠ [] →
      (validateConfig c).defaultSearchEngine ∈
        (validateConfig c).allowedSearchEngines) := by
  unfold validateConfig
  split
  · split
    · next hlen =>
      refine ⟨validDefault_mem c, ?_⟩
      intro hne
      exact absurd (List.length_eq_zero.mp hlen) hne
    · split
      · next hcont =>
        exact ⟨validDefault_mem c, fun _ => (contains_iff_mem _ _).mp hcont⟩
      · next hlen hcont =>
        have hne : filteredAllowed c ≠ [] := by
          intro h0
          rw [h0] at hlen
          exact hlen rfl
        obtain ⟨x, xs, hx⟩ := List.exists_cons_of_ne_nil hne
        rw [hx]
        have hxmem : x ∈ filteredAllowed c := by
          rw [hx]; exact List.mem_cons_self x xs
        exact ⟨mem_filtered_valid c x hxmem, fun _ => List.mem_cons_self x xs⟩
  · next hlen =>
    refine ⟨validDefault_mem c, ?_⟩
    intro hne
    exact absurd (List.length_pos.mpr hne) hlen

/-! ## Claims -/

/-- Claim C1: every POST to `/mcp` whose `mcp-session-id` header is
missing or does not match a registered streamable session, and whose
body is not a recognized initialization request, is answered with HTTP
status 400 and the JSON body
`{ jsonrpc: "2.0", error: { code: -32000, message: "Bad Request: No valid session ID provided" }, id: null }`,
and the request is not forwarded to any transport endpoint (the state is
returned unchanged and the outcome is the error envelope, not
`handledByTransport`). -/
theorem postMcp_no_session_nonInit_rejected (st : ServerState)
    (header : Option String) (ok : Bool) (fid : String) (fep : Nat)
    (hmiss : header = none ∨ recordGet st.streamable (header.getD "") = none) :
    postMcp st header false ok fid fep =
      (HttpResponse.jsonRpcErrorRes 400 (-32000)
        "Bad Request: No valid session ID provided", st) := by
  apply postMcp_reject
  · rcases hmiss with h | h
    · rw [h]; rfl
    · simp [h]
  · simp

/-- Witness for C1 at a concrete input: unknown header, non-init body. -/
theorem postMcp_no_session_nonInit_rejected_witness :
    postMcp initState (some "sess") false true "fresh" 0 =
      (HttpResponse.jsonRpcErrorRes 400 (-32000)
        "Bad Request: No valid session ID provided", initState) :=
  postMcp_no_session_nonInit_rejected initState (some "sess") true "fresh" 0
    (Or.inr rfl)

/-- Claim C2: terminating the streamable session `s` (a DELETE on `/mcp`
with header `s` is forwarded to the stored transport, whose `onclose`
handler removes `s` from the table) makes every later GET, POST or
DELETE to `/mcp` carrying `s` be rejected, along any continuation trace
in which the server never re-generates `s` as a fresh id (fresh ids are
`randomUUID()` values, assumed never to repeat a used id). -/
theorem closed_streamable_id_rejected_forever (st : ServerState) (s : String)
    (ep : Nat) (evs : List Ev) (hs : s ≠ "")
    (hreg : recordGet st.streamable s = some ep)
    (hav : ∀ e ∈ evs, evAvoids s e = true) :
    handleSessionRequest st (some s) = (HttpResponse.handledByTransport ep, st) ∧
    recordGet (streamableOnClose st (some s)).streamable s = none ∧
    recordGet (run (streamableOnClose st (some s)) evs).streamable s = none ∧
    handleSessionRequest (run (streamableOnClose st (some s)) evs) (some s) =
      (HttpResponse.textRes 400 "Invalid or missing session ID",
        run (streamableOnClose st (some s)) evs) ∧
    ∀ (i ok : Bool) (fid : String) (fep : Nat),
      postMcp (run (streamableOnClose st (some s)) evs) (some s) i ok fid fep =
        (HttpResponse.jsonRpcErrorRes 400 (-32000)
          "Bad Request: No valid session ID provided",
          run (streamableOnClose st (some s)) evs) := by
  have htr : jsTruthy (some s) = true := by simp [jsTruthy, hs]
  have hclose : recordGet (streamableOnClose st (some s)).streamable s = none := by
    unfold streamableOnClose
    rw [htr]
    simp [recordGet_delete_self]
  have hrun : recordGet (run (streamableOnClose st (some s)) evs).streamable s = none :=
    run_preserves_absent s evs _ hclose hav
  refine ⟨handleSessionRequest_forward st s ep hs hreg, hclose, hrun, ?_, ?_⟩
  · apply handleSessionRequest_reject
    simp [hrun]
  · intro i ok fid fep
    exact postMcp_unknown_header _ s i ok fid fep hs hrun

/-- Witness for C2: close session "a", then an unrelated new session
"b" is created; "a" stays out of the table. -/
theorem closed_streamable_id_rejected_forever_witness :
    recordGet (run (streamableOnClose ⟨[("a", 3)], [], [], ["a"]⟩ (some "a"))
      [Ev.postMcpEv none true true "b" 4]).streamable "a" = none :=
  (closed_streamable_id_rejected_forever ⟨[("a", 3)], [], [], ["a"]⟩ "a" 3
    [Ev.postMcpEv none true true "b" 4] (by decide) rfl (by decide)).2.2.1

/-- Claim C3 counterexample: the claim says an id appears in a session
table only after the corresponding endpoint's initialization completed;
but in the trace consisting of one GET `/sse`, the generated id is
already stored in the sse table while `server.connect` has not yet
resolved for it (registration at line 127 precedes the await at line
133), so the property is false. -/
theorem sse_registered_before_connect : ¬ insertedOnlyAfterInitSpec := by
  intro h
  have h3 : "a" ∈ (run initState [Ev.getSseEv "a" 0]).sseConnected :=
    (h [Ev.getSseEv "a" 0] "a").2 (by decide)
  exact absurd h3 (by decide)

/-- Claim C3 (amended): a streamable session id appears in the
streamable table only after its endpoint's handshake has completed (the
`onsessioninitialized` moment), in every reachable state; on the legacy
route, by contrast, the generated id is registered in the sse table
immediately when the endpoint is created, before `server.connect`
resolves. -/
theorem insertion_discipline (evs : List Ev) :
    StreamInv (run initState evs) ∧
    ∀ (st : ServerState) (g : String) (e : Nat),
      recordGet (step st (Ev.getSseEv g e)).sse g = some e := by
  refine ⟨reachable_streamInv evs, ?_⟩
  intro st g e
  simp only [step, getSseRegister]
  exact recordGet_set_self _ _ _

/-- Witness for C3 (amended): after one successful initialization the
id "g" is both stored and recorded as handshaked; a GET `/sse` stores
"a" at once. -/
theorem insertion_discipline_witness :
    "g" ∈ (run initState [Ev.postMcpEv none true true "g" 1]).handshaked ∧
    recordGet (step initState (Ev.getSseEv "a" 0)).sse "a" = some 0 :=
  ⟨(insertion_discipline [Ev.postMcpEv none true true "g" 1]).1 "g" (by decide),
   (insertion_discipline []).2 initState "a" 0⟩

/-- Claim C4 counterexample: inserting a streamable session whose
generated id "a" is already bound to endpoint 0 does not fail with any
error: the request is handled by the new transport (endpoint 1) and the
table entry is silently overwritten with endpoint 1. -/
theorem duplicate_insert_overwrites_cex :
    postMcp ⟨[("a", 0)], [], [], ["a"]⟩ none true true "a" 1 =
      (HttpResponse.handledByTransport 1,
        ⟨[("a", 1)], [], [], ["a", "a"]⟩) := by decide

/-- Claim C4 (amended): when the id being inserted is already present in
a session table, the insertion does not fail — there is no
DuplicateSessionError anywhere in the code — and the existing entry is
silently overwritten by the new endpoint, on both the streamable path
and the sse path. -/
theorem insert_overwrites (st : ServerState) (fid : String) (fep oldEp : Nat) :
    (recordGet st.streamable fid = some oldEp →
      (postMcp st none true true fid fep).1 = HttpResponse.handledByTransport fep ∧
      recordGet (postMcp st none true true fid fep).2.streamable fid = some fep) ∧
    (recordGet st.sse fid = some oldEp →
      recordGet (getSseRegister st fid fep).sse fid = some fep) := by
  constructor
  · intro _
    have hbranch : postMcp st none true true fid fep =
        (HttpResponse.handledByTransport fep,
          ⟨recordSet st.streamable fid fep, st.sse, st.sseConnected,
            st.handshaked ++ [fid]⟩) := by
      unfold postMcp
      simp [jsTruthy]
    rw [hbranch]
    exact ⟨rfl, recordGet_set_self _ _ _⟩
  · intro _
    exact recordGet_set_self _ _ _

/-- Witness for C4 (amended) with "a" already present in both tables. -/
theorem insert_overwrites_witness :
    recordGet (postMcp ⟨[("a", 0)], [("a", 0)], [], []⟩ none true true
      "a" 1).2.streamable "a" = some 1 ∧
    recordGet (getSseRegister ⟨[("a", 0)], [("a", 0)], [], []⟩ "a" 1).sse "a" =
      some 1 :=
  ⟨((insert_overwrites ⟨[("a", 0)], [("a", 0)], [], []⟩ "a" 1 0).1 rfl).2,
   (insert_overwrites ⟨[("a", 0)], [("a", 0)], [], []⟩ "a" 1 0).2 rfl⟩

/-- Claim C5: every GET or DELETE on `/mcp` whose header is absent or
names an id not present in the streamable table is answered with HTTP
400 and the plain-text body "Invalid or missing session ID", with the
state — in particular both session tables — returned unchanged. -/
theorem sessionRequest_invalid_id_rejected (st : ServerState)
    (header : Option String)
    (hmiss : header = none ∨ recordGet st.streamable (header.getD "") = none) :
    handleSessionRequest st header =
      (HttpResponse.textRes 400 "Invalid or missing session ID", st) := by
  apply handleSessionRequest_reject
  rcases hmiss with h | h
  · rw [h]; rfl
  · simp [h]

/-- Witness for C5 at a concrete input: unknown id on a non-empty
table. -/
theorem sessionRequest_invalid_id_rejected_witness :
    handleSessionRequest ⟨[("a", 1)], [], [], ["a"]⟩ (some "b") =
      (HttpResponse.textRes 400 "Invalid or missing session ID",
        ⟨[("a", 1)], [], [], ["a"]⟩) :=
  sessionRequest_invalid_id_rejected ⟨[("a", 1)], [], [], ["a"]⟩ (some "b")
    (Or.inr rfl)

/-- Claim C6: POST `/messages` resolves its target through the
`sessionId` query parameter (the `sid` argument models
`req.query.sessionId`): when the id maps to a live endpoint in the sse
table the message is forwarded to that endpoint, and otherwise the
server answers HTTP 400 with the body "No transport found for
sessionId"; the state is unchanged either way. -/
theorem postMessages_query_routing (st : ServerState) (sid : String) :
    (∀ ep : Nat, recordGet st.sse sid = some ep →
      postMessages st sid = (HttpResponse.handledByTransport ep, st)) ∧
    (recordGet st.sse sid = none →
      postMessages st sid =
        (HttpResponse.textRes 400 "No transport found for sessionId", st)) := by
  constructor
  · intro ep h
    unfold postMessages
    rw [h]
  · intro h
    unfold postMessages
    rw [h]

/-- Witness for C6: one live sse session and one unknown id. -/
theorem postMessages_query_routing_witness :
    postMessages ⟨[], [("s", 5)], [], []⟩ "s" =
      (HttpResponse.handledByTransport 5, ⟨[], [("s", 5)], [], []⟩) ∧
    postMessages initState "s" =
      (HttpResponse.textRes 400 "No transport found for sessionId", initState) :=
  ⟨(postMessages_query_routing ⟨[], [("s", 5)], [], []⟩ "s").1 5 rfl,
   (postMessages_query_routing initState "s").2 rfl⟩

/-- Claim C7: a GET `/sse` registers the server-generated id in the sse
table immediately — no handshake happens first — so a POST `/messages`
with that id forwards to the new endpoint right away; and when the
stream closes, the id's entry is removed from the sse table. -/
theorem sse_immediate_registration_and_cleanup (st st2 : ServerState)
    (g : String) (e : Nat) :
    recordGet (step st (Ev.getSseEv g e)).sse g = some e ∧
    postMessages (step st (Ev.getSseEv g e)) g =
      (HttpResponse.handledByTransport e, step st (Ev.getSseEv g e)) ∧
    recordGet (step st2 (Ev.sseCloseEv g)).sse g = none := by
  have h1 : recordGet (step st (Ev.getSseEv g e)).sse g = some e := by
    simp only [step, getSseRegister]
    exact recordGet_set_self _ _ _
  refine ⟨h1, ?_, ?_⟩
  · unfold postMessages
    rw [h1]
  · simp only [step, sseOnClose]
    exact recordGet_delete_self _ _

/-- Claim C8: the two session tables are partitioned by transport family
and never cross-matched: an id held in the streamable table (and not in
the sse table) does not resolve on POST `/messages`, which consults only
the sse table; and an id held in the sse table (and not in the
streamable table) does not resolve on GET/DELETE `/mcp` nor on POST
`/mcp`, which consult only the streamable table. -/
theorem tables_not_crossmatched (st : ServerState) (s : String) (ep : Nat) :
    (recordGet st.streamable s = some ep → recordGet st.sse s = none →
      postMessages st s =
        (HttpResponse.textRes 400 "No transport found for sessionId", st)) ∧
    (recordGet st.sse s = some ep → recordGet st.streamable s = none → s ≠ "" →
      handleSessionRequest st (some s) =
        (HttpResponse.textRes 400 "Invalid or missing session ID", st) ∧
      ∀ (i ok : Bool) (fid : String) (fep : Nat),
        postMcp st (some s) i ok fid fep =
          (HttpResponse.jsonRpcErrorRes 400 (-32000)
            "Bad Request: No valid session ID provided", st)) := by
  constructor
  · intro _ hsse
    unfold postMessages
    rw [hsse]
  · intro _ hstr hs
    refine ⟨?_, ?_⟩
    · apply handleSessionRequest_reject
      simp [hstr]
    · intro i ok fid fep
      exact postMcp_unknown_header st s i ok fid fep hs hstr

/-- Witness for C8: "a" lives only in the streamable table, "b" only in
the sse table; each is rejected on the other family's route. -/
theorem tables_not_crossmatched_witness :
    postMessages ⟨[("a", 1)], [("b", 2)], [], ["a"]⟩ "a" =
      (HttpResponse.textRes 400 "No transport found for sessionId",
        ⟨[("a", 1)], [("b", 2)], [], ["a"]⟩) ∧
    handleSessionRequest ⟨[("a", 1)], [("b", 2)], [], ["a"]⟩ (some "b") =
      (HttpResponse.textRes 400 "Invalid or missing session ID",
        ⟨[("a", 1)], [("b", 2)], [], ["a"]⟩) :=
  ⟨(tables_not_crossmatched ⟨[("a", 1)], [("b", 2)], [], ["a"]⟩ "a" 1).1 rfl rfl,
   ((tables_not_crossmatched ⟨[("a", 1)], [("b", 2)], [], ["a"]⟩ "b" 2).2 rfl rfl
     (by decide)).1⟩

/-- Claim C9 counterexample: a POST to `/mcp` that carries the
`mcp-session-id` header with the empty value "" — the header is present
and "" is not in the (empty) streamable table — together with a valid
initialization body is NOT rejected with 400: JS truthiness treats the
empty header value like a missing header, so a brand-new session "g" is
created and the request is handled by the new transport. -/
theorem postMcp_empty_header_creates_session :
    postMcp initState (some "") true true "g" 7 =
      (HttpResponse.handledByTransport 7, ⟨[("g", 7)], [], [], ["g"]⟩) := by decide

/-- Claim C9 (amended): a POST to `/mcp` whose header value is non-empty
and not in the streamable table is rejected with 400 even when the body
is a valid initialization request; and a new session can be created only
when the header is absent or has the empty value and the body is an
initialization request — a non-empty (truthy) header never changes the
state, and neither does a non-initialization body. -/
theorem postMcp_session_creation_conditions (st : ServerState) (s fid : String)
    (header : Option String) (i ok : Bool) (fep : Nat) :
    (s ≠ "" → recordGet st.streamable s = none →
      postMcp st (some s) i ok fid fep =
        (HttpResponse.jsonRpcErrorRes 400 (-32000)
          "Bad Request: No valid session ID provided", st)) ∧
    (jsTruthy header = true → (postMcp st header i ok fid fep).2 = st) ∧
    (postMcp st header false ok fid fep).2 = st := by
  refine ⟨?_, ?_, ?_⟩
  · intro hs hnone
    exact postMcp_unknown_header st s i ok fid fep hs hnone
  · intro ht
    apply postMcp_no_create
    rw [ht]
    simp
  · apply postMcp_no_create
    simp

/-- Witness for C9 (amended): a non-empty unknown header with an
initialization body is rejected; a POST on a live session leaves the
table unchanged. -/
theorem postMcp_session_creation_conditions_witness :
    postMcp initState (some "zz") true true "g" 7 =
      (HttpResponse.jsonRpcErrorRes 400 (-32000)
        "Bad Request: No valid session ID provided", initState) ∧
    (postMcp ⟨[("a", 1)], [], [], ["a"]⟩ (some "a") true true "g" 7).2 =
      ⟨[("a", 1)], [], [], ["a"]⟩ :=
  ⟨(postMcp_session_creation_conditions initState "zz" "g" (some "zz")
      true true 7).1 (by decide) rfl,
   (postMcp_session_creation_conditions ⟨[("a", 1)], [], [], ["a"]⟩ "x" "g"
      (some "a") true true 7).2.1 rfl⟩

/-- Claim C10: after configuration loading and validation,
`defaultSearchEngine` is always a member of the valid-engine list
(bing, duckduckgo, exa, brave, baidu, csdn, linuxdo, juejin) — the code
falls back to "bing" when the environment value is invalid — and
whenever the filtered `allowedSearchEngines` list is non-empty it
contains `defaultSearchEngine`. -/
theorem config_default_engine_invariant (envDefault envAllowed : Option String) :
    (loadConfig envDefault envAllowed).defaultSearchEngine ∈ validSearchEngines ∧
    ((loadConfig envDefault envAllowed).allowedSearchEngines ≠ [] →
      (loadConfig envDefault envAllowed).defaultSearchEngine ∈
        (loadConfig envDefault envAllowed).allowedSearchEngines) :=
  validateConfig_invariant (initialConfig envDefault envAllowed)

/-- Witness for C10: an invalid default engine together with an allowed
list that does not contain "bing". -/
theorem config_default_engine_invariant_witness :
    (loadConfig (some "google") (some "exa,brave")).defaultSearchEngine ∈
      validSearchEngines ∧
    (loadConfig (some "google") (some "exa,brave")).defaultSearchEngine ∈
      (loadConfig (some "google") (some "exa,brave")).allowedSearchEngines :=
  ⟨(config_default_engine_invariant (some "google") (some "exa,brave")).1,
   (config_default_engine_invariant (some "google") (some "exa,brave")).2
     (by decide)⟩

end OpenWebSearch
